import Mathlib

/-!
Verification of the BootcampPortal backend (src/main.py) against its
specification.  The Python file declares four SQLModel tables
(Announcement, MentorLink, TeammateLink, User), seeds the store at
process startup (four hard-coded users plus announcements parsed from a
CSV file), and serves three endpoints: GET /announcements,
POST /announcements/new and POST /reset-db.

The embedding below models the persisted relational store as four lists
of rows.  The SQLite engine behaviour that the handlers rely on is
modelled explicitly: a freshly inserted row with no explicit primary key
receives max existing id + 1, and a commit fails exactly when an
explicit primary key collides with an existing row (IntegrityError on
duplicate primary key, the only failure mode reachable through these
handlers).
-/

namespace BootcampPortal

/-- Row of the announcement table (class Announcement in src/main.py):
integer primary key plus three string columns. -/
structure Announcement where
  id : Nat
  user_name : String
  tag : String
  description : String
deriving Repr, DecidableEq

/-- Row of the mentorlink association table (class MentorLink). -/
structure MentorLink where
  mentor_id : Nat
  mentee_id : Nat
deriving Repr, DecidableEq

/-- Row of the teammatelink association table (class TeammateLink). -/
structure TeammateLink where
  user_id : Nat
  teammate_id : Nat
deriving Repr, DecidableEq

/-- Row of the user table (class User).  The relationship attributes
(teacher, students, mentors, mentees, teammates) are not columns: only
the foreign key teacher_id is persisted, and the collections are derived
from teacher_id and from the two association tables. -/
structure User where
  id : Nat
  name : String
  password : String
  role : String
  imgURL : String
  linkdinURL : String
  githubURL : String
  websiteURL : Option String
  resumeURL : Option String
  teacher_id : Option Nat
deriving Repr, DecidableEq

/-- The persisted state of the file-backed store: one list of rows per
table, in storage (insertion) order. -/
structure Store where
  announcements : List Announcement
  users : List User
  mentorLinks : List MentorLink
  teammateLinks : List TeammateLink
deriving Repr, DecidableEq

/-- The store of a fresh database file: every table empty. -/
def Store.empty : Store := ⟨[], [], [], []⟩

/-- Primary key assignment of the SQLite engine for a row inserted with
no explicit id: one more than the largest id present (1 on an empty
table). -/
def nextId (ids : List Nat) : Nat := ids.foldr max 0 + 1

/-- Ids of the rows currently in the announcement table. -/
def announcementIds (s : Store) : List Nat := s.announcements.map (fun a => a.id)

/-- SQLModel.metadata.create_all: creates missing tables, leaving the
rows of existing tables untouched. -/
def create_db_and_tables (s : Store) : Store := s

/-- reset_db_and_tables (src/main.py lines 84-86): drop_all followed by
create_all leaves every table present and empty. -/
def reset_db_and_tables (_s : Store) : Store := Store.empty

/-- Seed URL constant aryan_img_url from the lifespan body. -/
def aryan_img_url : String := "https://media.licdn.com/dms/image/v2/D4E35AQH0AwVtQ2-fug/profile-framedphoto-shrink_400_400/profile-framedphoto-shrink_400_400/0/1721141409771?e=1733724000&v=beta&t=jmpNYpfjBzGmvT3Ys0Uh5GBXDizN4Ffgk06a8d97lAE"

/-- Seed URL constant aryan_linkdin_url from the lifespan body. -/
def aryan_linkdin_url : String := "https://www.linkedin.com/in/aryanjain06/"

/-- Seed URL constant aryan_github_url from the lifespan body. -/
def aryan_github_url : String := "https://github.com/aryanj112"

/-- Seed URL constant aditi_img_url from the lifespan body. -/
def aditi_img_url : String := "https://media.licdn.com/dms/image/v2/D4E03AQEMlHUEHVLA2A/profile-displayphoto-shrink_400_400/profile-displayphoto-shrink_400_400/0/1726514279485?e=1738800000&v=beta&t=uor6AokOWHCl5eOJTFTgg2f6TtXq0hCzFYWbjsCupXM"

/-- Seed URL constant aditi_linkdin_url from the lifespan body. -/
def aditi_linkdin_url : String := "https://www.linkedin.com/in/-aditisethi/"

/-- Seed URL constant aditi_github_url from the lifespan body. -/
def aditi_github_url : String := "https://github.com/aditisethi15"

/-- Seed URL constant gavin_img_url from the lifespan body. -/
def gavin_img_url : String := "https://media.licdn.com/dms/image/v2/D5603AQGurWafPZmY3A/profile-displayphoto-shrink_400_400/profile-displayphoto-shrink_400_400/0/1712186812396?e=1738800000&v=beta&t=8ZDT-Nu_xUZQLHM_1k5jbTFciY1pjr0Ms3vdqiO5cqw"

/-- Seed URL constant gavin_github_url from the lifespan body. -/
def gavin_github_url : String := "https://github.com/gavinkhung"

/-- Seed URL constant gavin_linkdin_url from the lifespan body. -/
def gavin_linkdin_url : String := "https://www.linkedin.com/in/gavinkhung/"

/-- Seed URL constant gavin_website_url from the lifespan body. -/
def gavin_website_url : String := "https://www.gavinkhung.me/"

/-- Seed URL constant gavin_resume_url from the lifespan body. -/
def gavin_resume_url : String := "https://www.gavinkhung.me/resume.pdf"

/-- Seed URL constant kimber_img_url from the lifespan body. -/
def kimber_img_url : String := "https://webv2-backend.appdevclub.com/team-images/kimber-gonzalez-lopez.jpeg"

/-- Seed URL constant kimber_linkdin_url from the lifespan body. -/
def kimber_linkdin_url : String := "https://www.linkedin.com/in/kimber-gonzalez-lopez/"

/-- Seed URL constant kimber_github_url from the lifespan body. -/
def kimber_github_url : String := "https://github.com/KiberVG"

/-- First half of the lifespan body (src/main.py lines 99-143): build the
four seed users with their relationships and commit them in one session.
The flush assigns consecutive ids in foreign-key dependency order, so
Kimber (referenced as teacher by Aryan and Aditi) is inserted first; the
teacher assignments become teacher_id foreign keys, the mentor and
teammate appends become association rows (kimber.students.append
duplicates the already-set teacher pointer and adds no row). -/
def seedUsers (s : Store) : Store :=
  let base := nextId (s.users.map (fun u => u.id))
  let kimber : User :=
    ⟨base, "Kimber", "teach123", "TEACHER", kimber_img_url, kimber_linkdin_url,
      kimber_github_url, none, none, none⟩
  let gavin : User :=
    ⟨base + 1, "Gavin", "mentor123", "MENTOR", gavin_img_url, gavin_linkdin_url,
      gavin_github_url, some gavin_website_url, some gavin_resume_url, none⟩
  let aryan : User :=
    ⟨base + 2, "Aryan", "pass123", "STUDENT", aryan_img_url, aryan_linkdin_url,
      aryan_github_url, none, none, some base⟩
  let aditi : User :=
    ⟨base + 3, "Aditi", "pass123", "STUDENT", aditi_img_url, aditi_linkdin_url,
      aditi_github_url, none, none, some base⟩
  { s with
    users := s.users ++ [kimber, gavin, aryan, aditi],
    mentorLinks := s.mentorLinks ++ [⟨base + 1, base + 2⟩, ⟨base + 1, base + 3⟩],
    teammateLinks := s.teammateLinks ++
      [⟨base + 2, base + 3⟩, ⟨base + 3, base + 2⟩, ⟨base, base + 1⟩, ⟨base + 1, base⟩] }

/-- One row of the external CSV data source data/announcements.csv: each
expected column may be missing. -/
structure CsvRow where
  user_name : Option String
  tag : Option String
  description : Option String
deriving Repr, DecidableEq

/-- Reading the three expected fields of one CSV row
(row[user_name], row[tag], row[description] in the lifespan loop); a
missing field raises KeyError. -/
def parseAnnouncementRow (r : CsvRow) : Except String (String × String × String) :=
  match r.user_name, r.tag, r.description with
  | some u, some t, some d => Except.ok (u, t, d)
  | _, _, _ => Except.error "KeyError"

/-- The lifespan CSV loop: builds the list of announcement field tuples,
failing at the first malformed row; nothing is committed while the loop
runs. -/
def parseAnnouncements : List CsvRow → Except String (List (String × String × String))
  | [] => Except.ok []
  | r :: rs =>
    match parseAnnouncementRow r with
    | Except.error e => Except.error e
    | Except.ok x =>
      match parseAnnouncements rs with
      | Except.error e => Except.error e
      | Except.ok xs => Except.ok (x :: xs)

/-- Committing the parsed announcements (session.add_all(announcements);
session.commit()): each row receives the next auto-assigned id. -/
def insertAnnouncements (s : Store) (xs : List (String × String × String)) : Store :=
  xs.foldl
    (fun st x =>
      { st with announcements :=
          st.announcements ++ [⟨nextId (announcementIds st), x.1, x.2.1, x.2.2⟩] })
    s

/-- The lifespan startup hook (src/main.py lines 94-162): create tables,
build and commit the four seed users, then parse data/announcements.csv
and commit the parsed announcements.  Returns the persisted store
together with true when startup completed, false when the CSV was
malformed (the KeyError escapes after the user commit, so the users stay
persisted). -/
def lifespan (s : Store) (csv : List CsvRow) : Store × Bool :=
  let s1 := seedUsers (create_db_and_tables s)
  match parseAnnouncements csv with
  | Except.error _ => (s1, false)
  | Except.ok xs => (insertAnnouncements s1 xs, true)

/-- HTTPException data as raised by the handlers. -/
structure HTTPError where
  status_code : Nat
  detail : String
deriving Repr, DecidableEq

/-- Request body of POST /announcements/new: the Announcement model with
its id field defaulting to None, so a client may or may not supply an
explicit id. -/
structure AnnouncementPayload where
  id : Option Nat
  user_name : String
  tag : String
  description : String
deriving Repr, DecidableEq

/-- Commit outcome for the insert performed by post_announcement: the
commit raises (IntegrityError) exactly when the payload carries an
explicit id that collides with an existing announcement row. -/
def commitFails (s : Store) (p : AnnouncementPayload) : Bool :=
  match p.id with
  | some i => decide (i ∈ announcementIds s)
  | none => false

/-- Handler of GET /announcements (src/main.py lines 179-182): selects
every announcement row in storage order; it never raises. -/
def get_announcements (s : Store) : Store × Except HTTPError (List Announcement) :=
  (s, Except.ok s.announcements)

/-- Primary key the inserted announcement row ends up with: the explicit
id when the payload carries one, the auto-assigned id otherwise. -/
def assignedId (s : Store) (p : AnnouncementPayload) : Nat :=
  match p.id with
  | some i => i
  | none => nextId (announcementIds s)

/-- Handler of POST /announcements/new (src/main.py lines 184-195): adds
the row and commits; on commit failure it rolls the session back and
raises HTTPException(500, detail = Database commit failed); on success
it refreshes the row (materialising the assigned id) and returns it. -/
def post_announcement (s : Store) (p : AnnouncementPayload) :
    Store × Except HTTPError Announcement :=
  if commitFails s p then
    (s, Except.error ⟨500, "Database commit failed"⟩)
  else
    ({ s with announcements :=
        s.announcements ++ [⟨assignedId s p, p.user_name, p.tag, p.description⟩] },
      Except.ok ⟨assignedId s p, p.user_name, p.tag, p.description⟩)

/-- Handler of POST /reset-db (src/main.py lines 198-201): calls
reset_db_and_tables and returns the confirmation message.  It does not
call lifespan or any other seeding code. -/
def reset_database (s : Store) : Store × Except HTTPError String :=
  (reset_db_and_tables s, Except.ok "Database has been reset")

/-- Decidable equality for handler results. -/
instance {ε α : Type} [DecidableEq ε] [DecidableEq α] : DecidableEq (Except ε α) := fun x y =>
  match x, y with
  | Except.ok a, Except.ok b =>
    if h : a = b then isTrue (congrArg Except.ok h)
    else isFalse (fun hh => h (Except.ok.inj hh))
  | Except.error a, Except.error b =>
    if h : a = b then isTrue (congrArg Except.error h)
    else isFalse (fun hh => h (Except.error.inj hh))
  | Except.ok _, Except.error _ => isFalse (fun hh => Except.noConfusion hh)
  | Except.error _, Except.ok _ => isFalse (fun hh => Except.noConfusion hh)

/-- Derived students collection of a user: the rows whose teacher_id
foreign key points at that user (this is how the Relationship
back_populates pair materialises from the persisted column). -/
def students (us : List User) (t : User) : List User :=
  us.filter (fun u => u.teacher_id == some t.id)

/-- The Kimber row as persisted by seeding a fresh store (id 1). -/
def seededKimber : User :=
  ⟨1, "Kimber", "teach123", "TEACHER", kimber_img_url, kimber_linkdin_url,
    kimber_github_url, none, none, none⟩

/-- The Gavin row as persisted by seeding a fresh store (id 2). -/
def seededGavin : User :=
  ⟨2, "Gavin", "mentor123", "MENTOR", gavin_img_url, gavin_linkdin_url,
    gavin_github_url, some gavin_website_url, some gavin_resume_url, none⟩

/-- The Aryan row as persisted by seeding a fresh store (id 3, taught by
Kimber). -/
def seededAryan : User :=
  ⟨3, "Aryan", "pass123", "STUDENT", aryan_img_url, aryan_linkdin_url,
    aryan_github_url, none, none, some 1⟩

/-- The Aditi row as persisted by seeding a fresh store (id 4, taught by
Kimber). -/
def seededAditi : User :=
  ⟨4, "Aditi", "pass123", "STUDENT", aditi_img_url, aditi_linkdin_url,
    aditi_github_url, none, none, some 1⟩

/-! Helper lemmas about the auto-assignment of primary keys. -/

/-- Every element of a list of ids is at most the folded maximum. -/
theorem le_foldr_max (l : List Nat) (x : Nat) (hx : x ∈ l) : x ≤ l.foldr max 0 := by
  induction l with
  | nil => cases hx
  | cons a l ih =>
    rcases List.mem_cons.mp hx with h | h
    · subst h; exact Nat.le_max_left _ _
    · exact Nat.le_trans (ih h) (Nat.le_max_right _ _)

/-- The auto-assigned id is fresh: it never collides with an existing id. -/
theorem nextId_notMem (l : List Nat) : nextId l ∉ l := fun hmem =>
  Nat.not_succ_le_self (l.foldr max 0) (le_foldr_max l (nextId l) hmem)

/-- Folding max over a list with one element appended. -/
theorem foldr_max_append (l : List Nat) (x : Nat) :
    (l ++ [x]).foldr max 0 = max (l.foldr max 0) x := by
  induction l with
  | nil => simp [Nat.max_comm]
  | cons a l ih => simp [ih, Nat.max_assoc]

/-- Auto-assigning twice in a row yields consecutive ids. -/
theorem nextId_append_nextId (l : List Nat) :
    nextId (l ++ [nextId l]) = nextId l + 1 := by
  unfold nextId
  rw [foldr_max_append, Nat.max_eq_right (Nat.le_succ _)]

/-! Claim C1.  The reset handler only drops and recreates the tables; it
never calls the seed loader. -/

/-- Claim C1 as stated is false: after seeding a fresh store with one
CSV row, handling POST /reset-db and then GET /announcements returns the
empty list, not the seeded announcement set, because reset_database does
not re-run the seed loader. -/
theorem C1_counterexample :
    (get_announcements (reset_database ((lifespan Store.empty
        [⟨some "Aryan", some "@Homework", some "hw due"⟩]).1)).1).2 ≠
      Except.ok ((lifespan Store.empty
        [⟨some "Aryan", some "@Homework", some "hw due"⟩]).1).announcements ∧
    ((lifespan Store.empty
        [⟨some "Aryan", some "@Homework", some "hw due"⟩]).1).announcements ≠ [] := by
  decide

/-- Claim C1 amended: for every store state, handling POST /reset-db
destroys all tables and recreates them empty and returns the
confirmation message; it does not re-run the seed loader, so a
subsequent GET /announcements returns the empty collection. -/
theorem C1_reset_clears_without_reseeding (s : Store) :
    reset_database s = (Store.empty, Except.ok "Database has been reset") ∧
    (get_announcements (reset_database s).1).2 = Except.ok ([] : List Announcement) :=
  ⟨rfl, rfl⟩

/-! Claim C2.  The lifespan seed loader of src/main.py has no
existence-check guard: it inserts the four users and the CSV
announcements unconditionally on every startup. -/

/-- Claim C2 fails on the code: the seed loader never checks whether a
table already contains rows, so running startup twice over the same
store file duplicates every seed row (4 users and 1 announcement after
the first run, 8 users and 2 announcements after the second), where the
claim requires the second run to leave the 4 and 1 unchanged. -/
theorem C2_restart_duplicates_seed_rows :
    ((lifespan Store.empty [⟨some "A", some "@T", some "D"⟩]).1).users.length = 4 ∧
    ((lifespan Store.empty [⟨some "A", some "@T", some "D"⟩]).1).announcements.length = 1 ∧
    ((lifespan (lifespan Store.empty [⟨some "A", some "@T", some "D"⟩]).1
        [⟨some "A", some "@T", some "D"⟩]).1).users.length = 8 ∧
    ((lifespan (lifespan Store.empty [⟨some "A", some "@T", some "D"⟩]).1
        [⟨some "A", some "@T", some "D"⟩]).1).announcements.length = 2 := by
  decide

/-! Claim C3.  The lifespan hook commits the four users before it opens
the CSV, so a malformed CSV aborts startup only after the users are
already persisted. -/

/-- Claim C3 as stated is false: with a CSV whose single row is missing
the user_name field, startup fails, yet the four seed users are
persisted (the claim requires that no seed rows at all be persisted). -/
theorem C3_counterexample :
    (lifespan Store.empty [⟨none, some "@Homework", some "hw"⟩]).2 = false ∧
    ((lifespan Store.empty [⟨none, some "@Homework", some "hw"⟩]).1).users.length = 4 ∧
    ((lifespan Store.empty [⟨none, some "@Homework", some "hw"⟩]).1).announcements = [] := by
  decide

/-- Claim C3 amended: if the external CSV source is malformed (a row is
missing an expected field), startup fails and no announcement rows are
persisted, but the user (and link) seed rows, committed before the CSV
is read, remain persisted. -/
theorem C3_users_persist_on_malformed_csv (s : Store) (csv : List CsvRow)
    (h : ∃ e, parseAnnouncements csv = Except.error e) :
    (lifespan s csv).2 = false ∧
    (lifespan s csv).1.announcements = s.announcements ∧
    (lifespan s csv).1.users = (seedUsers s).users := by
  obtain ⟨e, he⟩ := h
  refine ⟨?_, ?_, ?_⟩ <;> simp [lifespan, he, create_db_and_tables, seedUsers]

/-- Witness for C3_users_persist_on_malformed_csv at a concrete
malformed CSV over the empty store. -/
theorem C3_users_persist_on_malformed_csv_witness :
    (∃ e, parseAnnouncements [(⟨none, some "@Homework", some "hw"⟩ : CsvRow)] =
        Except.error e) ∧
    ((lifespan Store.empty [(⟨none, some "@Homework", some "hw"⟩ : CsvRow)]).2 = false ∧
      (lifespan Store.empty
          [(⟨none, some "@Homework", some "hw"⟩ : CsvRow)]).1.announcements =
        Store.empty.announcements ∧
      (lifespan Store.empty [(⟨none, some "@Homework", some "hw"⟩ : CsvRow)]).1.users =
        (seedUsers Store.empty).users) :=
  ⟨⟨"KeyError", rfl⟩,
    C3_users_persist_on_malformed_csv Store.empty _ ⟨"KeyError", rfl⟩⟩

/-! Claim C4.  The create handler catches the commit exception, rolls
back and raises HTTPException(500, Database commit failed). -/

/-- Claim C4: for every store state and every create request whose
commit fails, the handler rolls back (the returned store is the
unchanged input store, so in particular the announcement count is
unchanged) and the error is exactly status 500 with detail Database
commit failed. -/
theorem C4_commit_failure_rolls_back (s : Store) (p : AnnouncementPayload)
    (h : commitFails s p = true) :
    post_announcement s p = (s, Except.error ⟨500, "Database commit failed"⟩) ∧
    (post_announcement s p).1.announcements.length = s.announcements.length := by
  constructor <;> simp [post_announcement, h]

/-- Witness for C4_commit_failure_rolls_back: a store holding the
announcement with id 1 and a payload reusing id 1. -/
theorem C4_commit_failure_rolls_back_witness :
    commitFails ⟨[⟨1, "a", "b", "c"⟩], [], [], []⟩ ⟨some 1, "x", "y", "z"⟩ = true ∧
    (post_announcement ⟨[⟨1, "a", "b", "c"⟩], [], [], []⟩ ⟨some 1, "x", "y", "z"⟩ =
        (⟨[⟨1, "a", "b", "c"⟩], [], [], []⟩,
          Except.error ⟨500, "Database commit failed"⟩) ∧
      (post_announcement ⟨[⟨1, "a", "b", "c"⟩], [], [], []⟩
          ⟨some 1, "x", "y", "z"⟩).1.announcements.length =
        (⟨[⟨1, "a", "b", "c"⟩], [], [], []⟩ : Store).announcements.length) :=
  ⟨by decide, C4_commit_failure_rolls_back _ _ (by decide)⟩

/-! Claim C5.  The list handler selects every announcement row. -/

/-- Claim C5: GET /announcements takes no input beyond the session,
never fails (the result is always Except.ok and the store is left
untouched), and returns all announcement rows in storage order; on the
empty store it returns the empty collection. -/
theorem C5_get_announcements_total (s : Store) :
    get_announcements s = (s, Except.ok s.announcements) ∧
    get_announcements Store.empty = (Store.empty, Except.ok ([] : List Announcement)) :=
  ⟨rfl, rfl⟩

/-! Claim C6.  A successful create returns the stored record; its id is
fresh and the record shows up in a subsequent GET. -/

/-- Claim C6: for every store state and payload, when the create handler
succeeds the returned record carries an identity that was not previously
present in the store, and a subsequent GET /announcements lists that
record. -/
theorem C6_created_record_fresh_and_listed (s : Store) (p : AnnouncementPayload)
    (a : Announcement) (h : (post_announcement s p).2 = Except.ok a) :
    a.id ∉ announcementIds s ∧
    ∃ l, (get_announcements (post_announcement s p).1).2 = Except.ok l ∧ a ∈ l := by
  cases hc : commitFails s p with
  | true => simp [post_announcement, hc] at h
  | false =>
    have hpost : post_announcement s p =
        ({ s with announcements := s.announcements ++
            [⟨assignedId s p, p.user_name, p.tag, p.description⟩] },
          Except.ok ⟨assignedId s p, p.user_name, p.tag, p.description⟩) := by
      rw [post_announcement, if_neg (by simp [hc])]
    rw [hpost] at h
    have ha := Except.ok.inj h
    subst ha
    constructor
    · show assignedId s p ∉ announcementIds s
      cases hp : p.id with
      | some i =>
        have hni : i ∉ announcementIds s := by simpa [commitFails, hp] using hc
        rw [show assignedId s p = i from by simp [assignedId, hp]]
        exact hni
      | none =>
        rw [show assignedId s p = nextId (announcementIds s) from by
          simp [assignedId, hp]]
        exact nextId_notMem _
    · refine ⟨s.announcements ++ [⟨assignedId s p, p.user_name, p.tag, p.description⟩],
        ?_, ?_⟩
      · rw [hpost]
        rfl
      · simp

/-- Witness for C6_created_record_fresh_and_listed: creating on the
empty store with no explicit id yields the record with id 1. -/
theorem C6_created_record_fresh_and_listed_witness :
    (post_announcement Store.empty ⟨none, "a", "t", "d"⟩).2 =
      Except.ok ⟨1, "a", "t", "d"⟩ ∧
    ((⟨1, "a", "t", "d"⟩ : Announcement).id ∉ announcementIds Store.empty ∧
      ∃ l, (get_announcements
          (post_announcement Store.empty ⟨none, "a", "t", "d"⟩).1).2 =
          Except.ok l ∧ (⟨1, "a", "t", "d"⟩ : Announcement) ∈ l) :=
  ⟨by decide, C6_created_record_fresh_and_listed Store.empty _ _ (by decide)⟩

/-! Claim C7.  The endpoint accepts explicit ids, so identities of two
sequential successful creates need not increase. -/

/-- Claim C7 as stated is false: on the empty store, creating with
explicit id 2 and then with explicit id 1 are two sequential successful
creates, yet the second assigned identity 1 is not greater than the
first assigned identity 2. -/
theorem C7_counterexample :
    (post_announcement Store.empty ⟨some 2, "a", "t", "d"⟩).2 =
      Except.ok ⟨2, "a", "t", "d"⟩ ∧
    (post_announcement (post_announcement Store.empty ⟨some 2, "a", "t", "d"⟩).1
        ⟨some 1, "a", "t", "d"⟩).2 = Except.ok ⟨1, "a", "t", "d"⟩ ∧
    ¬((⟨1, "a", "t", "d"⟩ : Announcement).id > (⟨2, "a", "t", "d"⟩ : Announcement).id) := by
  decide

/-- Claim C7 amended: for every store state, two sequential successful
create calls whose payloads carry no explicit id (the auto-assignment
path) receive distinct identities, the second strictly greater than the
first. -/
theorem C7_auto_assigned_ids_increase (s : Store) (p1 p2 : AnnouncementPayload)
    (h1 : p1.id = none) (h2 : p2.id = none) :
    ∃ a1 a2,
      (post_announcement s p1).2 = Except.ok a1 ∧
      (post_announcement (post_announcement s p1).1 p2).2 = Except.ok a2 ∧
      a1.id ≠ a2.id ∧ a1.id < a2.id := by
  have hc1 : commitFails s p1 = false := by simp [commitFails, h1]
  have hpost1 : post_announcement s p1 =
      ({ s with announcements := s.announcements ++
          [⟨nextId (announcementIds s), p1.user_name, p1.tag, p1.description⟩] },
        Except.ok ⟨nextId (announcementIds s), p1.user_name, p1.tag, p1.description⟩) := by
    rw [post_announcement, if_neg (by simp [hc1])]
    simp [assignedId, h1]
  set s1 := (post_announcement s p1).1 with hs1
  have hids : announcementIds s1 = announcementIds s ++ [nextId (announcementIds s)] := by
    rw [hs1, hpost1]
    simp [announcementIds]
  have hc2 : commitFails s1 p2 = false := by simp [commitFails, h2]
  have hpost2 : post_announcement s1 p2 =
      ({ s1 with announcements := s1.announcements ++
          [⟨nextId (announcementIds s1), p2.user_name, p2.tag, p2.description⟩] },
        Except.ok ⟨nextId (announcementIds s1), p2.user_name, p2.tag, p2.description⟩) := by
    rw [post_announcement, if_neg (by simp [hc2])]
    simp [assignedId, h2]
  refine ⟨⟨nextId (announcementIds s), p1.user_name, p1.tag, p1.description⟩,
    ⟨nextId (announcementIds s1), p2.user_name, p2.tag, p2.description⟩,
    by rw [hpost1], by rw [hpost2], ?_, ?_⟩
  · show nextId (announcementIds s) ≠ nextId (announcementIds s1)
    rw [hids, nextId_append_nextId]
    omega
  · show nextId (announcementIds s) < nextId (announcementIds s1)
    rw [hids, nextId_append_nextId]
    omega

/-- Witness for C7_auto_assigned_ids_increase: two id-less creates on
the empty store. -/
theorem C7_auto_assigned_ids_increase_witness :
    ((⟨none, "a", "t", "d"⟩ : AnnouncementPayload).id = none) ∧
    ((⟨none, "e", "f", "g"⟩ : AnnouncementPayload).id = none) ∧
    (∃ a1 a2,
      (post_announcement Store.empty ⟨none, "a", "t", "d"⟩).2 = Except.ok a1 ∧
      (post_announcement (post_announcement Store.empty ⟨none, "a", "t", "d"⟩).1
          ⟨none, "e", "f", "g"⟩).2 = Except.ok a2 ∧
      a1.id ≠ a2.id ∧ a1.id < a2.id) :=
  ⟨rfl, rfl,
    C7_auto_assigned_ids_increase Store.empty ⟨none, "a", "t", "d"⟩
      ⟨none, "e", "f", "g"⟩ rfl rfl⟩

/-! Claim C8.  The handlers never touch existing rows: GET is read-only,
create only appends one announcement, and only reset removes rows. -/

/-- Claim C8: for every store state and payload, the create handler
leaves every previously stored announcement in place (the resulting
announcement table is the old one plus an appended suffix) and leaves
the user, mentor-link and teammate-link tables unchanged, and the list
handler leaves the whole store unchanged; only POST /reset-db removes
rows. -/
theorem C8_announcements_immutable (s : Store) (p : AnnouncementPayload) :
    (∃ t, (post_announcement s p).1.announcements = s.announcements ++ t) ∧
    (post_announcement s p).1.users = s.users ∧
    (post_announcement s p).1.mentorLinks = s.mentorLinks ∧
    (post_announcement s p).1.teammateLinks = s.teammateLinks ∧
    (get_announcements s).1 = s := by
  cases hc : commitFails s p with
  | true =>
    exact ⟨⟨[], by simp [post_announcement, hc]⟩, by simp [post_announcement, hc],
      by simp [post_announcement, hc], by simp [post_announcement, hc], rfl⟩
  | false =>
    exact ⟨⟨[⟨assignedId s p, p.user_name, p.tag, p.description⟩],
        by simp [post_announcement, hc]⟩, by simp [post_announcement, hc],
      by simp [post_announcement, hc], by simp [post_announcement, hc], rfl⟩

/-! Claim C9.  The students collection is derived from the teacher_id
foreign key, so membership in it coincides with the teacher pointer. -/

/-- Claim C9: in the seeded store, the teacher relationship is
inverse-consistent: a seeded user has teacher t exactly when that user
appears in the students collection of t. -/
theorem C9_teacher_inverse_consistent (u t : User)
    (hu : u ∈ (seedUsers Store.empty).users)
    (ht : t ∈ (seedUsers Store.empty).users) :
    u.teacher_id = some t.id ↔ u ∈ students (seedUsers Store.empty).users t := by
  unfold students
  rw [List.mem_filter]
  constructor
  · intro h
    exact ⟨hu, by simp [h]⟩
  · rintro ⟨-, h⟩
    simpa using h

/-- Witness for C9_teacher_inverse_consistent: Aryan and Kimber, with
Aryan actually carrying teacher id 1 (Kimber). -/
theorem C9_teacher_inverse_consistent_witness :
    seededAryan ∈ (seedUsers Store.empty).users ∧
    seededKimber ∈ (seedUsers Store.empty).users ∧
    (seededAryan.teacher_id = some seededKimber.id ↔
      seededAryan ∈ students (seedUsers Store.empty).users seededKimber) ∧
    seededAryan.teacher_id = some seededKimber.id := by
  have husers : (seedUsers Store.empty).users =
      [seededKimber, seededGavin, seededAryan, seededAditi] := rfl
  have ha : seededAryan ∈ (seedUsers Store.empty).users := by
    rw [husers]
    exact List.Mem.tail _ (List.Mem.tail _ (List.Mem.head _))
  have hk : seededKimber ∈ (seedUsers Store.empty).users := by
    rw [husers]
    exact List.Mem.head _
  exact ⟨ha, hk, C9_teacher_inverse_consistent seededAryan seededKimber ha hk, rfl⟩

/-! Claim C10.  The request body is the Announcement model itself, so a
client may supply an explicit id; a duplicate id makes the commit fail. -/

/-- Claim C10: for every store state and payload carrying an explicit
id, when that id is not yet present the record is persisted and returned
under the client-chosen id, and when it equals an existing
announcement's id the commit fails, the store is unchanged, and the
handler reports the 500 commit-failure error. -/
theorem C10_explicit_id_create (s : Store) (p : AnnouncementPayload) (i : Nat)
    (h : p.id = some i) :
    (i ∉ announcementIds s →
      post_announcement s p =
        ({ s with announcements :=
            s.announcements ++ [⟨i, p.user_name, p.tag, p.description⟩] },
          Except.ok ⟨i, p.user_name, p.tag, p.description⟩)) ∧
    (i ∈ announcementIds s →
      post_announcement s p = (s, Except.error ⟨500, "Database commit failed"⟩)) := by
  constructor
  · intro hm
    have hc : commitFails s p = false := by simp [commitFails, h, hm]
    rw [post_announcement, if_neg (by simp [hc])]
    simp [assignedId, h]
  · intro hm
    have hc : commitFails s p = true := by simp [commitFails, h, hm]
    rw [post_announcement, if_pos hc]

/-- Witness for C10_explicit_id_create: a fresh explicit id 7 on the
empty store is persisted as given; the duplicate id 1 on a store already
holding id 1 is rejected with the 500 error and no change. -/
theorem C10_explicit_id_create_witness :
    ((⟨some 7, "a", "t", "d"⟩ : AnnouncementPayload).id = some 7 ∧
      (7 : Nat) ∉ announcementIds Store.empty ∧
      post_announcement Store.empty ⟨some 7, "a", "t", "d"⟩ =
        ({ Store.empty with announcements :=
            Store.empty.announcements ++ [⟨7, "a", "t", "d"⟩] },
          Except.ok ⟨7, "a", "t", "d"⟩)) ∧
    ((⟨some 1, "x", "y", "z"⟩ : AnnouncementPayload).id = some 1 ∧
      (1 : Nat) ∈ announcementIds ⟨[⟨1, "a", "b", "c"⟩], [], [], []⟩ ∧
      post_announcement ⟨[⟨1, "a", "b", "c"⟩], [], [], []⟩ ⟨some 1, "x", "y", "z"⟩ =
        (⟨[⟨1, "a", "b", "c"⟩], [], [], []⟩,
          Except.error ⟨500, "Database commit failed"⟩)) :=
  ⟨⟨rfl, by decide,
      (C10_explicit_id_create Store.empty ⟨some 7, "a", "t", "d"⟩ 7 rfl).1 (by decide)⟩,
    ⟨rfl, by decide,
      (C10_explicit_id_create ⟨[⟨1, "a", "b", "c"⟩], [], [], []⟩
          ⟨some 1, "x", "y", "z"⟩ 1 rfl).2 (by decide)⟩⟩

end BootcampPortal
